import Mathlib

/-!
Shallow embedding of the grommunio-admin-api LDAP integration layer
(`tools/ldap.py`) and of the `Domains` privilege-bit accessors
(`orm/orgs.py`), together with theorems settling the specification
claims about them.

Conventions of the embedding:
* Python strings that are handled as UTF-8 byte sequences are modelled
  as `List Nat` (one `Nat` per byte, each < 256 on real inputs).
* Python `dict`s whose insertion order matters are modelled as
  association lists with insert-or-replace update (`dictSet`).
* Python exceptions are modelled with `Except`; the distinct exception
  classes that the code branches on become constructors of small error
  types.
* Module-level globals (`ldapconf`, `LDAPConn`, `LDAP_available`,
  `_userAttributes`, `_defaultProps`) become the fields of `LdapState`,
  threaded explicitly.
* The remote directory is an oracle `Directory` mapping a search base
  and a filter string to an outcome.
-/

namespace Grommunio

/-- An LDAP attribute value as observed through `entry[attr].value`:
a scalar string, a number, or a list of strings. -/
inductive Value
  | num : Int → Value
  | str : String → Value
  | vlist : List String → Value
deriving DecidableEq, Repr

/-- A directory entry: attribute name to optional value
(`none` models a present attribute whose `.value` is Python `None`). -/
abbrev Entry := List (String × Option Value)

/-- A user-properties dictionary (`userdata["properties"]`). -/
abbrev Props := List (String × Option Value)

/-- `m[k] = v` on an insertion-ordered dict: replace in place if the key
exists, else append. -/
def dictSet (m : List (String × α)) (k : String) (v : α) : List (String × α) :=
  if m.any (fun p => p.1 == k) then
    m.map (fun p => if p.1 == k then (k, v) else p)
  else m ++ [(k, v)]

/-- `m.update(upd)` on insertion-ordered dicts. -/
def dictUpdate (m : List (String × α)) (upd : List (String × α)) : List (String × α) :=
  upd.foldl (fun acc p => dictSet acc p.1 p.2) m

/-- Attribute lookup on an entry; `some v` means the attribute is present
(Python `attr in entry`), with `.value` equal to `v`. -/
def lookupAttr (e : Entry) (a : String) : Option (Option Value) :=
  List.lookup a e

/-- `attr in entry`. -/
def hasAttr (e : Entry) (a : String) : Bool :=
  (lookupAttr e a).isSome

/-- `entry[attr].value`, flattened; only used on paths where presence was
already checked (Python would raise on an absent attribute). -/
def entryVal (e : Entry) (a : String) : Option Value :=
  match lookupAttr e a with
  | some v => v
  | none => none

/-- `_userComplete(user, required)` from tools/ldap.py:
`all(prop in user and user[prop].value is not None for prop in props)`. -/
def _userComplete (user : Entry) (required : List String) : Bool :=
  required.all fun p =>
    match lookupAttr user p with
    | some (some _) => true
    | _ => false

/-! ## Escaping (ldap3 `escape_filter_chars`) and `unescapeFilterChars` -/

/-- Byte-level form of ldap3's `escape_filter_chars` on `str` input,
with the string represented by its UTF-8 bytes.  The library performs
sequential `str.replace` calls (backslash first, then `*`, `(`, `)`,
NUL); since the replacement text never contains a character that a later
replace rewrites, this equals the per-character flat map below.  All
escaped characters are ASCII, so the byte-level map agrees with the
character-level one on UTF-8 data. -/
def escapeByte (b : Nat) : List Nat :=
  if b = 92 then [92, 53, 99]
  else if b = 42 then [92, 50, 97]
  else if b = 40 then [92, 50, 56]
  else if b = 41 then [92, 50, 57]
  else if b = 0 then [92, 48, 48]
  else [b]

/-- `escape_filter_chars` on the UTF-8 bytes of a string. -/
def escape_filter_chars (bs : List Nat) : List Nat :=
  (bs.map escapeByte).flatten

/-- Is the byte an ASCII hex digit (matches the `[a-fA-F0-9]` class of
`_unescapeRe`)? -/
def isHexDigit (b : Nat) : Bool :=
  (48 ≤ b && b ≤ 57) || (97 ≤ b && b ≤ 102) || (65 ≤ b && b ≤ 70)

/-- Numeric value of an ASCII hex digit byte. -/
def hexVal (b : Nat) : Nat :=
  if b ≤ 57 then b - 48 else if b ≤ 70 then b - 55 else b - 87

/-- Helper for `unescapeSegs`: prepend a raw byte.  It lands in the gap
preceding the first regex match, or in the trailing gap when no match
follows. -/
def consGap (b : Nat) : List (List Nat × Nat) × List Nat → List (List Nat × Nat) × List Nat
  | ([], tail) => ([], b :: tail)
  | ((g, v) :: segs, tail) => ((b :: g, v) :: segs, tail)

/-- Decomposition of a byte string along the non-overlapping,
left-to-right matches of `_unescapeRe = rb"\\([a-fA-F0-9]{2})"`:
for every match, the gap preceding it together with the decoded byte;
plus the trailing gap after the last match. -/
def unescapeSegs : List Nat → List (List Nat × Nat) × List Nat
  | [] => ([], [])
  | 92 :: h1 :: h2 :: rest =>
    if isHexDigit h1 && isHexDigit h2 then
      let r := unescapeSegs rest
      (([], 16 * hexVal h1 + hexVal h2) :: r.1, r.2)
    else
      consGap 92 (unescapeSegs (h1 :: h2 :: rest))
  | b :: rest => consGap b (unescapeSegs rest)

/-- `unescapeFilterChars(text)` from tools/ldap.py, on the UTF-8 bytes of
`text`.  The Python loop appends, for each match, the gap since the
previous match followed by the decoded byte, and finally returns the
accumulator if there was at least one match, else the raw input.  Note
that the trailing gap after the last match is never appended. -/
def unescapeFilterChars (raw : List Nat) : List Nat :=
  match unescapeSegs raw with
  | ([], _) => raw
  | (segs, _tail) => (segs.map fun s => s.1 ++ [s.2]).flatten

/-! ## `Domains` privilege flags (orm/orgs.py) -/

/-- Python `x or y` on an optional integer (`None` and `0` are falsy). -/
def pyOrNat (a : Option Nat) (b : Nat) : Nat :=
  match a with
  | some n => if n ≠ 0 then n else b
  | none => b

namespace Domains

def BACKUP : Nat := 1 <<< 0
def MONITOR : Nat := 1 <<< 1
def UNCHECKUSR : Nat := 1 <<< 2
def SUBSYSTEM : Nat := 1 <<< 3
def NETDISK : Nat := 1 <<< 4

/-- `Domains._setFlag`:
`self.privilegeBits = (self.privilegeBits or 0) | flag if val else (self.privilegeBits or 0) & ~flag`.
On non-negative Python ints, `bits & ~flag` clears the bits of `flag`
from `bits`; since `bits &&& flag` is a bitwise subset of `bits`, that
equals `bits ^^^ (bits &&& flag)`. -/
def _setFlag (privilegeBits : Option Nat) (flag : Nat) (val : Bool) : Nat :=
  if val then (pyOrNat privilegeBits 0) ||| flag
  else (pyOrNat privilegeBits 0) ^^^ ((pyOrNat privilegeBits 0) &&& flag)

/-- `Domains._getFlag`: `bool(self.privilegeBits or 0 & flag)`.
Python gives `&` higher precedence than `or`, so this is
`bool(privilegeBits or (0 & flag))`; `0 & flag = 0`, so the result is
the truthiness of `privilegeBits` alone. -/
def _getFlag (privilegeBits : Option Nat) (flag : Nat) : Bool :=
  decide (pyOrNat privilegeBits (0 &&& flag) ≠ 0)

end Domains

/-! ## `LDAPGuard` proxy (`__getattr__` / `proxyfunc`) -/

/-- The exception classes that the guard distinguishes. -/
inductive Fault
  | socketOpen
  | socketSend
  | sessionTerminated
  | bindError
  | poolExhausted
  | other (code : Nat)
deriving DecidableEq, Repr

/-- The three transport-level classes caught by `proxyfunc`. -/
def Fault.isTransport : Fault → Bool
  | .socketOpen => true
  | .socketSend => true
  | .sessionTerminated => true
  | _ => false

/-- Outcome of one delegated call on the underlying connection object. -/
inductive CallOutcome (α : Type)
  | ok (a : α)
  | fail (f : Fault)
deriving DecidableEq, Repr

/-- Propagate a call outcome as a Python return/raise. -/
def CallOutcome.toResult : CallOutcome α → Except Fault α
  | .ok a => .ok a
  | .fail f => .error f

/-- `proxyfunc` from `LDAPGuard.__getattr__` (tools/ldap.py lines 34-42):
run the delegated call; on a transport fault reconnect once
(`self.__connect(True)`, outcome `reconnectOk`) and, if the reconnect
succeeded, run the call once more and return its outcome as is; if the
reconnect failed, raise the stored connection error.  Non-transport
faults are not caught.  Besides the result, the pair counts how many
reconnect attempts and how many retried calls were made. -/
def proxyfunc (first : CallOutcome α) (reconnectOk : Bool) (storedError : Fault)
    (second : CallOutcome α) : Except Fault α × Nat × Nat :=
  match first with
  | .ok a => (.ok a, 0, 0)
  | .fail f =>
    if f.isTransport then
      if reconnectOk then (second.toResult, 1, 1)
      else (.error storedError, 1, 0)
    else (.error f, 0, 0)

/-! ## Filter compiler (`_matchFilters`, `_matchFiltersMulti`, `_searchFilters`) -/

/-- Character-level `escape_filter_chars` on `str` input (the `ldap3`
library replaces each of the five metacharacters by its two-hex-digit
escape and leaves every other character alone). -/
def escChar (c : Char) : List Char :=
  if c = '\\' then ['\\', '5', 'c']
  else if c = '*' then ['\\', '2', 'a']
  else if c = '(' then ['\\', '2', '8']
  else if c = ')' then ['\\', '2', '9']
  else if c = Char.ofNat 0 then ['\\', '0', '0']
  else [c]

/-- `escape_filter_chars` on a Python `str`. -/
def escapeStr (s : String) : String :=
  String.mk (s.data.map escChar).flatten

/-- Lowercase hex digit of a nibble. -/
def hexDigitChar (n : Nat) : Char :=
  if n < 10 then Char.ofNat (48 + n) else Char.ofNat (87 + n)

/-- An ID handed to the filter builders: the facade passes either a
`str` or a `bytes` object.  `escape_filter_chars` escapes the five
metacharacters of a `str`, and escapes every byte of a `bytes` value
(the library delegates to `escape_bytes`). -/
inductive LdapId
  | s (v : String)
  | b (v : List Nat)
deriving DecidableEq, Repr

/-- `escape_filter_chars ID` as interpolated into a filter string. -/
def escapeId : LdapId → String
  | .s v => escapeStr v
  | .b v => String.mk ((v.map fun byte => ['\\', hexDigitChar (byte / 16), hexDigitChar (byte % 16)]).flatten)

/-- Python `sep.join(list)`. -/
def joinSep (sep : String) : List String → String
  | [] => ""
  | [f] => f
  | f :: g :: rest => f ++ sep ++ joinSep sep (g :: rest)

/-- Python `"".join(list)`. -/
def strConcat (l : List String) : String :=
  l.foldr (fun a b => a ++ b) ""

/-- `_matchFilters(ID)` from tools/ldap.py, with the configuration
values it reads (`objectID`, `users.filters`, `users.get("filter", "")`)
as arguments:
`filters = ")(".join(users.filters)` and the result is
`"(&({objectID}={ESC(ID)}){group}{filter})"` where `group` is
`"(" + filters + ")"` when the joined string is non-empty and empty
otherwise. -/
def _matchFilters (objectID : String) (filters : List String) (userFilter : String)
    (id : LdapId) : String :=
  let fs := joinSep ")(" filters
  "(&(" ++ objectID ++ "=" ++ escapeId id ++ ")"
    ++ (if fs.length ≠ 0 then "(" ++ fs ++ ")" else "") ++ userFilter ++ ")"

/-- `_matchFiltersMulti(IDs)` from tools/ldap.py: the mandatory-filter
group is emitted when the filter *list* is non-empty, and the ID group
is `"(|" ++ one (objectID=ESC(ID)) term per ID ++ ")"`. -/
def _matchFiltersMulti (objectID : String) (filters : List String) (userFilter : String)
    (ids : List LdapId) : String :=
  let fgroup := if filters.length > 0 then "(" ++ joinSep ")(" filters ++ ")" else ""
  let idFilters := "(|" ++ strConcat (ids.map fun i => "(" ++ objectID ++ "=" ++ escapeId i ++ ")") ++ ")"
  "(&" ++ fgroup ++ idFilters ++ userFilter ++ ")"

/-- `_searchFilters(query, domains, userconf)` from tools/ldap.py, with
the user-configuration values as arguments.  `domains = none` models the
Python default `domains=None`; `some ds` a supplied domain list. -/
def _searchFilters (username : String) (filters : List String)
    (searchAttributes : List String) (userFilter : String)
    (query : Option String) (domains : Option (List String)) : String :=
  let filterexpr := strConcat (filters.map fun f => "(" ++ f ++ ")")
  let domainexpr := match domains with
    | some ds => "(|" ++ strConcat (ds.map fun d => "(" ++ username ++ "=*@" ++ d ++ ")") ++ ")"
    | none => ""
  let searchexpr := match query with
    | some q => "(|" ++ strConcat (searchAttributes.map fun sattr => "(" ++ sattr ++ "=*" ++ escapeStr q ++ "*)") ++ ")"
    | none => ""
  "(&" ++ filterexpr ++ searchexpr ++ domainexpr ++ userFilter ++ ")"

/-- The spec's clause form: every clause individually parenthesized, in
order. -/
def wrapClauses : List String → String
  | [] => ""
  | f :: rest => "(" ++ f ++ ")" ++ wrapClauses rest

/-- Does `pat` occur as a contiguous run inside `l`? -/
def listHasInfix (pat : List Char) : List Char → Bool
  | [] => decide (pat = [])
  | c :: rest => decide ((c :: rest).take pat.length = pat) || listHasInfix pat rest

theorem strConcat_cons (x : String) (l : List String) :
    strConcat (x :: l) = x ++ strConcat l := rfl

theorem strConcat_wrap (l : List String) :
    strConcat (l.map fun f => "(" ++ f ++ ")") = wrapClauses l := by
  induction l with
  | nil => rfl
  | cons f rest ih => simp only [List.map_cons, strConcat_cons, wrapClauses, ih]

theorem paren_join (l : List String) (h : l ≠ []) :
    "(" ++ joinSep ")(" l ++ ")" = wrapClauses l := by
  induction l with
  | nil => cases h rfl
  | cons f rest ih =>
    cases rest with
    | nil => simp [joinSep, wrapClauses, String.append_empty]
    | cons g rest2 =>
      have ih2 := ih (by simp)
      show "(" ++ (f ++ ")(" ++ joinSep ")(" (g :: rest2)) ++ ")"
          = ("(" ++ f ++ ")") ++ wrapClauses (g :: rest2)
      rw [← ih2]
      generalize joinSep ")(" (g :: rest2) = J
      apply String.ext
      simp [String.data_append]

theorem length_ne_zero_of_ne_empty (s : String) (h : s ≠ "") : s.length ≠ 0 := by
  cases s with
  | mk data =>
    intro hl
    apply h
    simp [String.length] at hl
    simp [hl]

/-- The mandatory-filter group of `_matchFilters` equals the spec's
individually-wrapped clause list whenever the clause list is not the
singleton empty clause. -/
theorem matchFilters_group (filters : List String) (h : filters ≠ [""]) :
    (if (joinSep ")(" filters).length ≠ 0 then "(" ++ joinSep ")(" filters ++ ")" else "")
      = wrapClauses filters := by
  match filters, h with
  | [], _ => rfl
  | [f], h =>
    have hf : f ≠ "" := fun hc => h (by rw [hc])
    have : (joinSep ")(" [f]).length ≠ 0 := length_ne_zero_of_ne_empty f hf
    rw [if_pos this]
    exact paren_join [f] (by simp)
  | f :: g :: rest, _ =>
    have hlen : (joinSep ")(" (f :: g :: rest)).length ≠ 0 := by
      show (f ++ ")(" ++ joinSep ")(" (g :: rest)).length ≠ 0
      rw [String.length_append, String.length_append]
      have h2 : (")(" : String).length = 2 := rfl
      rw [h2]
      omega
    rw [if_pos hlen]
    exact paren_join _ (by simp)

/-! ## Claim C6: shape of `_matchFilters` -/

/-- C6 (amended): for every configuration whose mandatory filter list is
not the singleton empty clause, `_matchFilters` produces exactly
`(&(objectID=ESC(id))(f1)...(fn)userFilter)`: object-ID equality first,
each mandatory clause individually parenthesized in configured order,
the single filter clause last, absent clauses contributing nothing. -/
theorem c6_matchFilters_shape (objectID : String) (filters : List String)
    (userFilter : String) (id : LdapId) (h : filters ≠ [""]) :
    _matchFilters objectID filters userFilter id
      = "(&(" ++ objectID ++ "=" ++ escapeId id ++ ")" ++ wrapClauses filters
          ++ userFilter ++ ")" := by
  simp only [_matchFilters, matchFilters_group filters h]

/-- Witness for C6 at a concrete configuration and ID. -/
theorem c6_matchFilters_shape_witness :
    _matchFilters "uid" ["a"] "(u)" (LdapId.s "x")
      = "(&(" ++ "uid" ++ "=" ++ escapeId (LdapId.s "x") ++ ")" ++ wrapClauses ["a"]
          ++ "(u)" ++ ")" :=
  c6_matchFilters_shape "uid" ["a"] "(u)" (LdapId.s "x") (by decide)

/-- C6 as stated fails on the code: with mandatory filter list `[""]`
(one empty clause), the joined clause string is empty, so the code emits
no group at all, while the claimed shape contains the parenthesized
empty clause `()`. -/
theorem c6_matchFilters_counterexample :
    _matchFilters "uid" [""] "" (LdapId.s "x") = "(&(uid=x))"
    ∧ "(&(" ++ "uid" ++ "=" ++ escapeId (LdapId.s "x") ++ ")" ++ wrapClauses [""]
        ++ "" ++ ")" = "(&(uid=x)())"
    ∧ ("(&(uid=x))" : String) ≠ "(&(uid=x)())" := by
  refine ⟨rfl, rfl, by decide⟩

/-! ## Claim C7: empty clause lists and dangling groups -/

/-- C7 (amended): an empty mandatory-filter list, a null query, an
absent domain restriction and an absent single filter clause contribute
nothing to the produced filter string; but an empty ID list in the
multi-ID filter, an empty supplied domain list, and an empty
search-attribute list with a non-null query each produce the degenerate
empty OR-group `(|)`. -/
theorem c7_empty_groups
    (objectID userFilter username : String) (id : LdapId) (ids : List LdapId)
    (filters searchAttributes : List String) (q : String) :
    _matchFilters objectID [] userFilter id
      = "(&(" ++ objectID ++ "=" ++ escapeId id ++ ")" ++ userFilter ++ ")"
    ∧ _matchFiltersMulti objectID [] userFilter ids
      = "(&" ++ ("(|" ++ strConcat (ids.map fun i => "(" ++ objectID ++ "=" ++ escapeId i ++ ")") ++ ")")
          ++ userFilter ++ ")"
    ∧ _searchFilters username [] searchAttributes userFilter none none
      = "(&" ++ userFilter ++ ")"
    ∧ _searchFilters username filters [] userFilter (some q) none
      = "(&" ++ wrapClauses filters ++ "(|)" ++ userFilter ++ ")"
    ∧ _searchFilters username filters searchAttributes userFilter none (some [])
      = "(&" ++ wrapClauses filters ++ "(|)" ++ userFilter ++ ")" := by
  refine ⟨?_, ?_, ?_, ?_, ?_⟩
  · simp [_matchFilters, joinSep, String.append_empty]
  · simp [_matchFiltersMulti, String.append_empty]
  · simp [_searchFilters, strConcat, String.append_empty]
  · simp only [_searchFilters, strConcat_wrap, List.map_nil]
    show "(&" ++ wrapClauses filters ++ ("(|" ++ strConcat [] ++ ")") ++ "" ++ userFilter ++ ")" = _
    simp [strConcat, String.append_empty]
  · simp only [_searchFilters, strConcat_wrap, List.map_nil]
    show "(&" ++ wrapClauses filters ++ "" ++ ("(|" ++ strConcat [] ++ ")") ++ userFilter ++ ")" = _
    simp [strConcat, String.append_empty]

/-- C7 as stated fails on the code: an empty ID list, an empty supplied
domain list, and an empty search-attribute list with a non-null query
each leave a dangling empty OR-group `(|)` in the output. -/
theorem c7_counterexample :
    _matchFiltersMulti "uid" [] "" [] = "(&(|))"
    ∧ _searchFilters "mail" [] ["cn"] "" none (some []) = "(&(|))"
    ∧ _searchFilters "mail" [] [] "" (some "q") none = "(&(|))"
    ∧ listHasInfix "(|)".data "(&(|))".data = true := by
  refine ⟨rfl, rfl, rfl, by decide⟩

/-! ## Claim C8: normalization of the single filter clause -/

/-- The filter-clause normalization performed by `_testConfig`
(tools/ldap.py lines 437-440): when the configured `users.filter` is
present, non-`None`, non-empty, does not start with `(` and does not end
with `)`, it is replaced by its parenthesized form. -/
def normalizeFilter (f : Option String) : Option String :=
  match f with
  | none => none
  | some f =>
    if f.length ≠ 0 ∧ f.front ≠ '(' ∧ f.back ≠ ')' then some ("(" ++ f ++ ")")
    else some f

/-- C8 (amended): the clause is wrapped exactly when it is non-empty,
does not start with an opening parenthesis and does not end with a
closing parenthesis; a clause that starts with `(` or ends with `)`, an
empty clause and an absent clause are left unchanged. -/
theorem c8_normalizeFilter_cases (f : String) :
    (f ≠ "" → f.front ≠ '(' → f.back ≠ ')' →
        normalizeFilter (some f) = some ("(" ++ f ++ ")"))
    ∧ (f.front = '(' ∨ f.back = ')' ∨ f = "" → normalizeFilter (some f) = some f)
    ∧ normalizeFilter none = none := by
  refine ⟨?_, ?_, rfl⟩
  · intro h1 h2 h3
    have hlen : f.length ≠ 0 := length_ne_zero_of_ne_empty f h1
    simp [normalizeFilter, hlen, h2, h3]
  · intro h
    rcases h with h | h | h
    · simp [normalizeFilter, h]
    · simp [normalizeFilter, h]
    · subst h; simp [normalizeFilter]

/-- Witness for C8 at a concrete clause. -/
theorem c8_normalizeFilter_cases_witness :
    normalizeFilter (some "x") = some ("(" ++ "x" ++ ")") :=
  (c8_normalizeFilter_cases "x").1 (by decide) (by decide) (by decide)

/-- C8 as stated fails on the code: the clause `a)` is non-empty and not
already parenthesized (it does not even start with a parenthesis), yet
because its last character is `)` the code leaves it unwrapped. -/
theorem c8_counterexample :
    normalizeFilter (some "a)") = some "a)"
    ∧ ("a)" : String) ≠ ""
    ∧ ("a)" : String).front ≠ '('
    ∧ normalizeFilter (some "a)") ≠ some ("(" ++ "a)" ++ ")") := by
  refine ⟨rfl, by decide, by decide, by decide⟩

/-! ## Configuration, `_testConfig` and `reloadConfig` -/

/-- The `ldap.users` configuration block.  `none` models an absent key
(or a `None` value where the code only distinguishes absent/None). -/
structure UsersConf where
  username : Option String
  displayName : Option String
  searchAttributes : Option (List String)
  filters : List String
  filter : Option String
  subtree : Option String
  aliases : Option String
  templates : List String
  attributes : List (String × String)
  defaultQuota : Option Int
deriving DecidableEq, Repr

/-- The `ldap.connection` configuration block. -/
structure ConnConf where
  server : Option String
  bindUser : Option String
  bindPass : Option String
  starttls : Bool
deriving DecidableEq, Repr

/-- A full LDAP configuration dictionary. -/
structure Conf where
  baseDn : Option String
  objectID : Option String
  users : Option UsersConf
  connection : Option ConnConf
  disabled : Bool
deriving DecidableEq, Repr

/-- A live guarded connection (`LDAPGuard`), reduced to the data the
facade reads back from it. -/
structure Conn where
  server : String
deriving DecidableEq, Repr

/-- The module-level state of tools/ldap.py: `ldapconf`, the global
`_userAttributes`, `_defaultProps`, `LDAPConn` and `LDAP_available`. -/
structure LdapState where
  ldapconf : Conf
  userAttributes : List (String × String)
  defaultProps : Props
  conn : Option Conn
  available : Bool
deriving DecidableEq, Repr

/-- The failures `_testConfig` can raise, as caught by `reloadConfig`:
`KeyError` for a missing mandatory value, `ValueError` for an unknown
template, the stored guard error when the connection cannot be
established, and whatever the provisioning probe raises. -/
inductive TestErr
  | missingField (field : String)
  | unknownTemplate (t : String)
  | connectError
  | probeError
deriving DecidableEq, Repr

/-- `value is None or len(value) == 0` on an optional string field
(`False` also when the key is absent). -/
def checkStr : Option String → Bool
  | none => false
  | some s => s.length != 0

/-- The same check on an optional list field. -/
def checkStrList : Option (List String) → Bool
  | none => false
  | some l => l.length != 0

/-- The template-resolution loop of `_testConfig`: starting from an
empty working map, look every enabled template up in the static table
(first unknown name raises `ValueError`) and merge its attribute map
into the working map in listed order. -/
def resolveTemplates (table : List (String × List (String × String))) (ts : List String) :
    Except String (List (String × String)) :=
  ts.foldlM (fun acc t =>
    match List.lookup t table with
    | none => .error t
    | some m => .ok (dictUpdate acc m)) []

/-- `_testConfig(ldapconf)` from tools/ldap.py.  `templates` is the
static table loaded from `res/ldapTemplates.yaml`; `connOk` tells
whether constructing the `LDAPGuard` leaves no stored error, and
`probeOk` whether the provisioning search succeeds.  Besides the result
(`None`-connection for a disabled configuration), the function returns
the configuration dictionary (whose `users.filter` entry it may have
normalized in place) and the value of the global `_defaultProps`, which
it reassigns after the connection is established but before the probe
runs; both are returned on every path so that `reloadConfig` can thread
the in-place effects. -/
def _testConfig (templates : List (String × List (String × String))) (conf : Conf)
    (connOk probeOk : Bool) (defaults0 : Props) :
    Except TestErr (Option Conn × List (String × String)) × Conf × Props :=
  if ¬ checkStr conf.baseDn then (.error (.missingField "baseDn"), conf, defaults0)
  else if ¬ checkStr conf.objectID then (.error (.missingField "objectID"), conf, defaults0)
  else match conf.users, conf.connection with
  | none, _ => (.error (.missingField "users"), conf, defaults0)
  | some _, none => (.error (.missingField "connection"), conf, defaults0)
  | some us, some cn =>
    if ¬ checkStr cn.server then (.error (.missingField "connection.server"), conf, defaults0)
    else if ¬ checkStr us.username then (.error (.missingField "users.username"), conf, defaults0)
    else if ¬ checkStrList us.searchAttributes then
      (.error (.missingField "users.searchAttributes"), conf, defaults0)
    else if ¬ checkStr us.displayName then (.error (.missingField "users.displayName"), conf, defaults0)
    else match resolveTemplates templates us.templates with
    | .error t => (.error (.unknownTemplate t), conf, defaults0)
    | .ok tmap =>
      let userAttributes := dictUpdate tmap us.attributes
      if conf.disabled then (.ok (none, userAttributes), conf, defaults0)
      else if ¬ connOk then (.error .connectError, conf, defaults0)
      else
        let conf2 : Conf := { conf with users := some { us with filter := normalizeFilter us.filter } }
        let defaults2 : Props := match us.defaultQuota with
          | some q => [("storagequotalimit", some (Value.num q)),
                       ("prohibitsendquota", some (Value.num q)),
                       ("prohibitreceivequota", some (Value.num q))]
          | none => []
        if ¬ probeOk then (.error .probeError, conf2, defaults2)
        else (.ok (some { server := cn.server.getD "" }, userAttributes), conf2, defaults2)

/-- `reloadConfig(conf)` from tools/ldap.py: on success, commit the new
configuration, attribute map, connection and availability flag; on any
exception from `_testConfig`, report the error message — but the global
`_defaultProps` keeps whatever `_testConfig` last assigned to it. -/
def reloadConfig (templates : List (String × List (String × String))) (st : LdapState)
    (conf : Conf) (connOk probeOk : Bool) : LdapState × Option TestErr :=
  match _testConfig templates conf connOk probeOk st.defaultProps with
  | (.ok (c, attrs), conf2, defaults2) =>
    ({ ldapconf := conf2, userAttributes := attrs, defaultProps := defaults2,
       conn := c, available := c.isSome }, none)
  | (.error e, _, defaults2) =>
    ({ st with defaultProps := defaults2 }, some e)

/-- `disable()` from tools/ldap.py. -/
def disable (st : LdapState) : LdapState :=
  { st with conn := none, available := false }

/-! ## Claim C2: reload failure leaves the previous state in effect -/

set_option maxHeartbeats 1600000 in
/-- On every failing path of `_testConfig` other than the probe itself,
the global `_defaultProps` is untouched. -/
theorem testConfig_defaults_unchanged (templates : List (String × List (String × String)))
    (conf : Conf) (connOk probeOk : Bool) (defaults0 : Props) (e : TestErr)
    (conf2 : Conf) (defaults2 : Props)
    (h : _testConfig templates conf connOk probeOk defaults0 = (.error e, conf2, defaults2))
    (hp : e ≠ .probeError) : defaults2 = defaults0 := by
  unfold _testConfig at h
  dsimp only [] at h
  repeat' split at h
  all_goals simp_all

/-- C2 (amended): whenever `reloadConfig` fails, the active
configuration, the attribute map, the connection and the availability
flag all keep their previous values; and for every failure other than a
failed provisioning probe (missing field, unknown template, connection
failure) the derived default-properties mapping is unchanged as well.
When the probe itself fails, `_defaultProps` has already been replaced
by the mapping derived from the new configuration. -/
theorem c2_reload_failure_preserves_state
    (templates : List (String × List (String × String))) (st : LdapState) (conf : Conf)
    (connOk probeOk : Bool) (st2 : LdapState) (e : TestErr)
    (h : reloadConfig templates st conf connOk probeOk = (st2, some e)) :
    st2.ldapconf = st.ldapconf ∧ st2.userAttributes = st.userAttributes
    ∧ st2.conn = st.conn ∧ st2.available = st.available
    ∧ (e ≠ .probeError → st2.defaultProps = st.defaultProps) := by
  unfold reloadConfig at h
  rcases htc : _testConfig templates conf connOk probeOk st.defaultProps with ⟨res, conf2, defaults2⟩
  rw [htc] at h
  cases res with
  | ok v =>
    rcases v with ⟨c, attrs⟩
    simp at h
  | error e2 =>
    injection h with h1 h2
    injection h2 with h2
    subst h1
    subst h2
    exact ⟨rfl, rfl, rfl, rfl, fun hp =>
      testConfig_defaults_unchanged templates conf connOk probeOk st.defaultProps e2
        conf2 defaults2 htc hp⟩

/-- A concrete configuration used by the C2 and C3 theorems: the example
of spec §8 extended with a default quota. -/
def confQuota : Conf :=
  { baseDn := some "dc=x", objectID := some "uid",
    users := some { username := some "mail", displayName := some "cn",
                    searchAttributes := some ["cn"], filters := [], filter := none,
                    subtree := none, aliases := none, templates := [], attributes := [],
                    defaultQuota := some 7 },
    connection := some { server := some "ldap://h", bindUser := none, bindPass := none,
                         starttls := false },
    disabled := false }

/-- An initial state holding a previously committed default-properties
mapping. -/
def statePrev : LdapState :=
  { ldapconf := confQuota, userAttributes := [],
    defaultProps := [("storagequotalimit", some (Value.num 100))],
    conn := some { server := "ldap://h" }, available := true }

/-- Witness for C2 at a concrete failing reload (missing `baseDn`). -/
theorem c2_reload_failure_preserves_state_witness :
    (reloadConfig [] statePrev { confQuota with baseDn := none } true true).2
        = some (.missingField "baseDn")
    ∧ (reloadConfig [] statePrev { confQuota with baseDn := none } true true).1.defaultProps
        = statePrev.defaultProps := by
  refine ⟨rfl, ?_⟩
  exact (c2_reload_failure_preserves_state [] statePrev { confQuota with baseDn := none }
    true true _ _ rfl).2.2.2.2 (by decide)

/-- C2 as stated fails on the code: when the provisioning probe fails,
`reloadConfig` reports an error and keeps the previous configuration and
connection, but the global `_defaultProps` has already been replaced
(here: the previous mapping with quota 100 becomes the new quota-7
mapping). -/
theorem c2_probe_failure_mutates_defaults :
    (reloadConfig [] statePrev confQuota true false).2 = some .probeError
    ∧ (reloadConfig [] statePrev confQuota true false).1.defaultProps
        = [("storagequotalimit", some (Value.num 7)),
           ("prohibitsendquota", some (Value.num 7)),
           ("prohibitreceivequota", some (Value.num 7))]
    ∧ (reloadConfig [] statePrev confQuota true false).1.defaultProps
        ≠ statePrev.defaultProps := by
  refine ⟨rfl, rfl, by decide⟩

/-! ## Claim C4: the guard's single-reconnect retry policy -/

/-- C4: if the delegated call fails with a transport-level fault, the
guard makes exactly one reconnect attempt; on reconnect success it
retries the operation exactly once and returns that retried outcome; on
reconnect failure it fails with the stored connection error without
retrying; and a non-transport fault propagates unchanged with no
reconnect and no retry. -/
theorem c4_guard_retry_policy (α : Type) (f : Fault) (reconnectOk : Bool)
    (storedError : Fault) (second : CallOutcome α) :
    (f.isTransport = true → reconnectOk = true →
        proxyfunc (.fail f) reconnectOk storedError second = (second.toResult, 1, 1))
    ∧ (f.isTransport = true → reconnectOk = false →
        proxyfunc (.fail f) reconnectOk storedError second = (.error storedError, 1, 0))
    ∧ (f.isTransport = false →
        proxyfunc (.fail f) reconnectOk storedError second = (.error f, 0, 0)) := by
  refine ⟨?_, ?_, ?_⟩
  · intro ht hr; subst hr; simp [proxyfunc, ht]
  · intro ht hr; subst hr; simp [proxyfunc, ht]
  · intro ht; simp [proxyfunc, ht]

/-- Witness for C4: a socket-send fault followed by a successful
reconnect and retry returns the retried result once. -/
theorem c4_guard_retry_policy_witness :
    proxyfunc (.fail .socketSend) true .poolExhausted (.ok (5 : Nat))
      = (.ok 5, 1, 1) :=
  (c4_guard_retry_policy Nat .socketSend true .poolExhausted (.ok 5)).1 rfl rfl

/-! ## The facade operations -/

/-- The Python exception classes the facade code can raise or branch
on. -/
inductive PyErr
  | keyError
  | attributeError
  | invalidValue
  | ldapError
  | runtimeError
deriving DecidableEq, Repr

/-- Outcome of `LDAPConn.search(base, filter, ...)`: the result entries
as `(dn, entry)` pairs, an `LDAPInvalidValueError`, or any other
exception. -/
inductive SearchOutcome
  | ok (entries : List (String × Entry))
  | invalidValue
  | failOther
deriving DecidableEq, Repr

/-- The remote directory as an oracle: search base and filter string to
search outcome. -/
abbrev Directory := String → String → SearchOutcome

/-- `_searchBase(conf)` from tools/ldap.py; reading `conf["baseDn"]`
raises `KeyError` when the key is absent. -/
def _searchBase (conf : Conf) : Except PyErr String :=
  match conf.baseDn with
  | none => .error .keyError
  | some b =>
    match conf.users with
    | some us =>
      match us.subtree with
      | some sub => .ok (sub ++ "," ++ b)
      | none => .ok b
    | none => .ok b

/-- `_matchFilters` reading its configuration from the module state:
`ldapconf["users"]` and `ldapconf["objectID"]` raise `KeyError` when
absent. -/
def matchFiltersConf (conf : Conf) (id : LdapId) : Except PyErr String :=
  match conf.users with
  | none => .error .keyError
  | some us =>
    match conf.objectID with
    | none => .error .keyError
    | some oid => .ok (_matchFilters oid us.filters (us.filter.getD "") id)

/-- `_matchFiltersMulti` reading its configuration from the module
state.  (With an empty ID list the Python generator never evaluates
`ldapconf["objectID"]`, but every caller also puts it in the requested
attribute list, so the key is required either way.) -/
def matchFiltersMultiConf (conf : Conf) (ids : List LdapId) : Except PyErr String :=
  match conf.users with
  | none => .error .keyError
  | some us =>
    match conf.objectID with
    | none => .error .keyError
    | some oid => .ok (_matchFiltersMulti oid us.filters (us.filter.getD "") ids)

/-- `_searchFilters` reading its configuration from the module state;
`users.searchAttributes` is only read when the query is non-null. -/
def searchFiltersConf (conf : Conf) (query : Option String) (domains : Option (List String)) :
    Except PyErr String :=
  match conf.users with
  | none => .error .keyError
  | some us =>
    match us.username with
    | none => .error .keyError
    | some username =>
      match query with
      | some q =>
        match us.searchAttributes with
        | none => .error .keyError
        | some sa => .ok (_searchFilters username us.filters sa (us.filter.getD "") (some q) domains)
      | none => .ok (_searchFilters username us.filters [] (us.filter.getD "") none domains)

/-- The `GenericObject` result shape (ID, username, display name,
e-mail); a `none` field models a keyword argument the constructor was
not given or a null attribute value. -/
structure GenericObject where
  ID : Option Value
  username : Option Value
  name : Option Value
  email : Option Value
deriving DecidableEq, Repr

/-- `authUser(ID, password)` from tools/ldap.py.  `bindOk dn password`
tells whether the fresh `ldap3.Connection(server, user=dn,
password=password, auto_bind=True)` bind succeeds. -/
def authUser (st : LdapState) (dir : Directory) (bindOk : String → String → Bool)
    (id : LdapId) (password : String) : Except PyErr (Option String) :=
  if ¬ st.available then .ok (some "LDAP not configured")
  else
    match st.conn with
    | none => .error .attributeError
    | some _ =>
      match _searchBase st.ldapconf, matchFiltersConf st.ldapconf id with
      | .ok base, .ok filt =>
        (match dir base filt with
        | .invalidValue => .error .invalidValue
        | .failOther => .error .ldapError
        | .ok [] => .ok (some "Invalid Username or password")
        | .ok [(dn, _)] =>
          (match st.ldapconf.connection with
          | none => .error .keyError
          | some _ =>
            if bindOk dn password then .ok none
            else .ok (some "Invalid username or Password"))
        | .ok (_ :: _ :: _) =>
          .ok (some "Multiple entries found - please contact your administrator"))
      | .error e, _ => .error e
      | _, .error e => .error e

/-- `getUserInfo(ID)` from tools/ldap.py: single-ID search restricted to
the three display attributes; `None` on zero or multiple matches, on an
`LDAPInvalidValueError`, or on incompleteness. -/
def getUserInfo (st : LdapState) (dir : Directory) (id : LdapId) :
    Except PyErr (Option GenericObject) :=
  if ¬ st.available then .ok none
  else
    match st.ldapconf.users with
    | none => .error .keyError
    | some us =>
      match us.username, us.displayName with
      | some username, some name =>
        (match st.conn with
        | none => .error .attributeError
        | some _ =>
          match _searchBase st.ldapconf, matchFiltersConf st.ldapconf id, st.ldapconf.objectID with
          | .ok base, .ok filt, some oid =>
            (match dir base filt with
            | .invalidValue => .ok none
            | .failOther => .error .ldapError
            | .ok [(_, entry)] =>
              if _userComplete entry [username, name, oid] then
                .ok (some { ID := entryVal entry oid, username := entryVal entry username,
                            name := entryVal entry name, email := entryVal entry username })
              else .ok none
            | .ok _ => .ok none)
          | .error e, _, _ => .error e
          | _, .error e, _ => .error e
          | _, _, none => .error .keyError)
      | none, _ => .error .keyError
      | _, none => .error .keyError

/-- `getAll(IDs)` from tools/ldap.py: multi-ID search; entries failing
the default completeness check are dropped silently. -/
def getAll (st : LdapState) (dir : Directory) (ids : List LdapId) :
    Except PyErr (List GenericObject) :=
  if ¬ st.available then .ok []
  else
    match st.ldapconf.users with
    | none => .error .keyError
    | some us =>
      match us.username, us.displayName with
      | some username, some name =>
        (match st.conn with
        | none => .error .attributeError
        | some _ =>
          match _searchBase st.ldapconf, matchFiltersMultiConf st.ldapconf ids,
              st.ldapconf.objectID with
          | .ok base, .ok filt, some oid =>
            (match dir base filt with
            | .invalidValue => .error .invalidValue
            | .failOther => .error .ldapError
            | .ok entries =>
              .ok ((entries.filter fun p => _userComplete p.2 [username, name, oid]).map fun p =>
                { ID := entryVal p.2 oid, username := entryVal p.2 username,
                  name := entryVal p.2 name, email := entryVal p.2 username }))
          | .error e, _, _ => .error e
          | _, .error e, _ => .error e
          | _, _, none => .error .keyError)
      | none, _ => .error .keyError
      | _, none => .error .keyError

/-- The `DownsyncRecord` dictionary built by `downsyncUser`:
`aliases = none` models a configuration without an alias attribute, in
which the `"aliases"` key is not added at all. -/
structure Userdata where
  username : Option Value
  properties : Props
  aliases : Option (List Value)
deriving DecidableEq, Repr

/-- `aliases if isinstance(aliases, list) else [aliases]`. -/
def valueToList : Value → List Value
  | .vlist l => l.map Value.str
  | v => [v]

/-- `downsyncUser(ID, props)` from tools/ldap.py.  The second component
of the result is the content of the caller-supplied `props` dictionary
after the call (`none` when no dictionary was supplied), making the
in-place mutation performed through
`userdata["properties"] = props or _defaultProps.copy()` followed by
`userdata["properties"].update(...)` observable: a non-empty (truthy)
caller dictionary becomes the record's own property mapping, an empty or
absent one is replaced by a copy of the global defaults. -/
def downsyncUser (st : LdapState) (dir : Directory) (id : LdapId) (props : Option Props) :
    Except PyErr (Option Userdata) × Option Props :=
  if ¬ st.available then (.ok none, props)
  else
    let searched : Option (List (String × Entry)) :=
      match st.conn with
      | none => none
      | some _ =>
        match _searchBase st.ldapconf, matchFiltersConf st.ldapconf id with
        | .ok base, .ok filt =>
          (match dir base filt with
          | .ok es => some es
          | _ => none)
        | _, _ => none
    match searched with
    | none => (.ok none, props)
    | some [] => (.ok none, props)
    | some (_ :: _ :: _) => (.error .runtimeError, props)
    | some [(_, entry)] =>
      match st.ldapconf.users with
      | none => (.error .keyError, props)
      | some us =>
        match us.username with
        | none => (.error .keyError, props)
        | some username =>
          if ¬ _userComplete entry [username] then (.ok none, props)
          else
            let seed : Props :=
              match props with
              | some ps => if ps.isEmpty then st.defaultProps else ps
              | none => st.defaultProps
            let upd : List (String × Option Value) :=
              st.userAttributes.filterMap fun ap =>
                if hasAttr entry ap.1 then some (ap.2, entryVal entry ap.1) else none
            let properties := dictUpdate seed upd
            let aliases : Option (List Value) :=
              match us.aliases with
              | some aattr =>
                if aattr.length != 0 then
                  some (match lookupAttr entry aattr with
                        | some (some v) => valueToList v
                        | _ => [])
                else none
              | none => none
            let propsAfter : Option Props :=
              match props with
              | some ps => if ps.isEmpty then some ps else some properties
              | none => none
            (.ok (some { username := entryVal entry username, properties := properties,
                         aliases := aliases }), propsAfter)

/-- UTF-8 bytes of a string. -/
def strBytes (s : String) : List Nat :=
  s.toUTF8.toList.map (fun b => b.toNat)

/-- Modelled from the spec: the exact-match step of `search` calls
`_userComplete` on the `GenericObject` returned by the exact lookup, but
`GenericObject` is defined in tools/misc.py, which is not among the
provided sources.  Per the spec the exact match is prepended only "if
found and complete"; completeness of a normalized user means its
attributes carry non-null values. -/
def genericComplete (u : GenericObject) : Bool :=
  u.ID.isSome && u.username.isSome && u.name.isSome

/-- `searchUsers(query, domains, limit)` from tools/ldap.py: one exact
lookup on the unescaped query (any failure swallowed), then the
substring search; `limit` is forwarded to the server as the page size
and does not otherwise affect the computation. -/
def searchUsers (st : LdapState) (dir : Directory) (query : String)
    (domains : Option (List String)) (limit : Nat) : Except PyErr (List GenericObject) :=
  if ¬ st.available then .ok []
  else
    match st.ldapconf.objectID with
    | none => .error .keyError
    | some oid =>
      match st.ldapconf.users with
      | none => .error .keyError
      | some us =>
        match us.displayName, us.username with
        | some name, some email =>
          let exact : List GenericObject :=
            match getUserInfo st dir (.b (unescapeFilterChars (strBytes query))) with
            | .ok (some u) => if genericComplete u then [u] else []
            | _ => []
          (match st.conn with
          | none => .error .attributeError
          | some _ =>
            match _searchBase st.ldapconf, searchFiltersConf st.ldapconf (some query) domains with
            | .ok base, .ok filt =>
              (match dir base filt with
              | .invalidValue => .error .invalidValue
              | .failOther => .error .ldapError
              | .ok entries =>
                .ok (exact ++ (entries.filter fun p => _userComplete p.2 [email, name, oid]).map fun p =>
                  { ID := entryVal p.2 oid, username := none,
                    name := entryVal p.2 name, email := entryVal p.2 email }))
            | .error e, _ => .error e
            | _, .error e => .error e)
        | none, _ => .error .keyError
        | _, none => .error .keyError

/-- `dumpUser(ID)` from tools/ldap.py: raw full-attribute fetch,
returned only when exactly one entry matches.  Note that, unlike every
other facade operation, it does not check `LDAP_available`; Python
evaluates the callee `LDAPConn.search` before the arguments, so with no
live connection the attribute access on `None` raises
`AttributeError`. -/
def dumpUser (st : LdapState) (dir : Directory) (id : LdapId) : Except PyErr (Option Entry) :=
  match st.conn with
  | none => .error .attributeError
  | some _ =>
    match _searchBase st.ldapconf, matchFiltersConf st.ldapconf id with
    | .ok base, .ok filt =>
      (match dir base filt with
      | .invalidValue => .error .invalidValue
      | .failOther => .error .ldapError
      | .ok [(_, entry)] => .ok (some entry)
      | .ok _ => .ok none)
    | .error e, _ => .error e
    | _, .error e => .error e

/-! ## Claim C3: behaviour when the service is disabled -/

/-- A directory oracle that finds nothing. -/
def dirEmpty : Directory := fun _ _ => .ok []

/-- The state after loading `confQuota` with `disabled: true` (or after
`disable()`): no connection, not available. -/
def disabledState : LdapState :=
  { ldapconf := { confQuota with disabled := true }, userAttributes := [],
    defaultProps := [], conn := none, available := false }

/-- C3 fails on the code: with the service administratively disabled,
`authUser`, `getUserInfo`, `getAll`, `searchUsers` and `downsyncUser`
all return their negative results, but `dumpUser` — the one facade
operation without the `LDAP_available` guard — raises `AttributeError`
by calling `search` on the `None` connection instead of returning
`None`. -/
theorem c3_disabled_dump_raises :
    authUser disabledState dirEmpty (fun _ _ => true) (.s "u") "pw"
        = .ok (some "LDAP not configured")
    ∧ getUserInfo disabledState dirEmpty (.s "u") = .ok none
    ∧ getAll disabledState dirEmpty [.s "u"] = .ok []
    ∧ searchUsers disabledState dirEmpty "q" none 25 = .ok []
    ∧ downsyncUser disabledState dirEmpty (.s "u") none = (.ok none, none)
    ∧ dumpUser disabledState dirEmpty (.s "u") = .error .attributeError := by
  exact ⟨rfl, rfl, rfl, rfl, rfl, rfl⟩

/-! ## Claim C5: mutation of the caller-supplied properties -/

/-- A committed, enabled state with one mapped attribute and no default
properties. -/
def activeState : LdapState :=
  { ldapconf := confQuota, userAttributes := [("mail", "smtp")], defaultProps := [],
    conn := some { server := "ldap://h" }, available := true }

/-- A directory oracle returning one entry carrying the mapped `mail`
attribute. -/
def dirOne : Directory :=
  fun _ _ => .ok [("dn1", [("mail", some (.str "m@x"))])]

/-- C5 as stated fails on the code: a non-empty caller-supplied
default-properties mapping is used directly as the record's property
mapping and updated in place — after the call the caller's dictionary
has gained the mapped attribute value. -/
theorem c5_downsync_mutates_props :
    (downsyncUser activeState dirOne (.s "u1") (some [("p", some (Value.num 1))])).2
      = some [("p", some (Value.num 1)), ("smtp", some (Value.str "m@x"))]
    ∧ (downsyncUser activeState dirOne (.s "u1") (some [("p", some (Value.num 1))])).2
      ≠ some [("p", some (Value.num 1))] := by
  exact ⟨rfl, by decide⟩

/-- C5 (amended): `downsyncUser` copies the global default-properties
mapping before seeding, and leaves an absent or empty caller-supplied
mapping untouched; but a non-empty caller-supplied mapping is used
directly as the returned record's property mapping, so after a
successful downsync the caller's dictionary holds exactly the record's
properties (and is unchanged on every other path). -/
theorem c5_downsync_props_policy (st : LdapState) (dir : Directory) (id : LdapId) :
    (downsyncUser st dir id none).2 = none
    ∧ (downsyncUser st dir id (some [])).2 = some []
    ∧ ∀ ps : Props, ps ≠ [] →
        (downsyncUser st dir id (some ps)).2 = some ps
        ∨ ∃ u : Userdata, (downsyncUser st dir id (some ps)).1 = .ok (some u)
            ∧ (downsyncUser st dir id (some ps)).2 = some u.properties := by
  refine ⟨?_, ?_, ?_⟩
  · unfold downsyncUser
    dsimp only []
    repeat' split
    all_goals rfl
  · unfold downsyncUser
    dsimp only []
    repeat' split
    all_goals first | rfl | simp_all
  · intro ps hne
    cases ps with
    | nil => cases hne rfl
    | cons p ps2 =>
      unfold downsyncUser
      dsimp only []
      repeat' split
      all_goals first
        | exact Or.inl rfl
        | exact Or.inr ⟨_, rfl, rfl⟩

/-- Witness for C5 at a concrete successful downsync with a non-empty
caller mapping. -/
theorem c5_downsync_props_policy_witness :
    (downsyncUser activeState dirOne (.s "u1") (some [("q", some (Value.num 2))])).2
        = some [("q", some (Value.num 2))]
    ∨ ∃ u : Userdata,
        (downsyncUser activeState dirOne (.s "u1") (some [("q", some (Value.num 2))])).1
            = .ok (some u)
        ∧ (downsyncUser activeState dirOne (.s "u1") (some [("q", some (Value.num 2))])).2
            = some u.properties :=
  (c5_downsync_props_policy activeState dirOne (.s "u1")).2.2
    [("q", some (Value.num 2))] (by decide)

/-! ## Claim C9: `_userComplete` monotonicity -/

/-- C9: `isComplete` is monotonic — for a fixed required-attribute set,
an entry extension (every present attribute kept with the same value)
can only turn a failing check into a passing one.  If `_userComplete`
holds on `e` and `e'` preserves every attribute of `e`, it holds on
`e'`. -/
theorem c9_userComplete_monotonic (required : List String) (e e' : Entry)
    (hext : ∀ a v, lookupAttr e a = some v → lookupAttr e' a = some v)
    (h : _userComplete e required = true) : _userComplete e' required = true := by
  simp only [_userComplete, List.all_eq_true] at h ⊢
  intro p hp
  have hq := h p hp
  cases hv : lookupAttr e p with
  | none => rw [hv] at hq; exact absurd hq (by simp)
  | some v =>
    cases v with
    | none => rw [hv] at hq; exact absurd hq (by simp)
    | some w => rw [hext p (some w) hv]

/-- Witness for C9 at a concrete pair of entries: the two-attribute entry
extends the one-attribute entry. -/
theorem c9_userComplete_monotonic_witness :
    _userComplete [("uid", some (Value.str "u")), ("cn", some (Value.str "c"))] ["uid"] = true := by
  apply c9_userComplete_monotonic ["uid"] [("uid", some (Value.str "u"))]
  · intro a v
    simp only [lookupAttr, List.lookup]
    cases ha : a == "uid" <;> simp [ha]
  · decide

/-! ## Claim C10: privilege-flag getter -/

/-- C10 fails on the code: with `privilegeBits = 2` only the MONITOR bit
is set, yet the BACKUP getter returns `true`, and after setting BACKUP
to `false` the getter still returns `true`.  Due to operator precedence,
`_getFlag` tests the truthiness of `privilegeBits` and ignores the
flag. -/
theorem c10_getFlag_ignores_flag :
    Domains._getFlag (some 2) Domains.BACKUP = true
    ∧ 2 &&& Domains.BACKUP = 0
    ∧ Domains._getFlag (some (Domains._setFlag (some 2) Domains.BACKUP false)) Domains.BACKUP = true := by
  decide

/-! ## Claim C1: escaping round-trip -/

/-- C1 fails on the code: for `s = "*x"` (UTF-8 bytes `[42, 120]`),
`escape_filter_chars` yields `"\2ax"` and `unescapeFilterChars` drops
everything after the last two-hex-digit escape, returning `b"*"` instead
of `b"*x"`. -/
theorem c1_roundtrip_drops_tail :
    unescapeFilterChars (escape_filter_chars [42, 120]) = [42]
    ∧ unescapeFilterChars (escape_filter_chars [42, 120]) ≠ [42, 120] := by
  decide

end Grommunio
